import Mathlib

/-!
Shallow embedding of the rtwire Go client library (package `client`,
file `client.go`): the response-envelope decoder `do`/`doError`, the
resource operations built on it (CreateAccount, Account, CreateAddress,
CreateTransactionIDs, Transaction, Transfer, Debit, CreateHook), and the
webhook parser `Unmarshal`.

Modelling conventions:
- JSON values are the inductive `JValue`; JSON numbers are modelled as
  integers (the rtwire wire format uses only integral values).
- The behaviour of Go's `encoding/json` unmarshalling, for exactly the
  target shapes the client uses, is modelled by the `decode*` functions:
  a JSON `null` or an absent key leaves a struct field at its zero value,
  a JSON `null` unmarshalled into a slice yields the empty slice, a type
  mismatch is a decode error, and for duplicate keys the last one wins.
  Field keys are matched by the lower-case names used on the wire.
- Go error values are the inductive `GoError`.  The three package-level
  sentinel errors (`ErrTxIDUsed`, `ErrInsufficientFunds`, `ErrHookExists`)
  are distinct constructors; every `errors.New`/`fmt.Errorf` call site
  creates a value that is never identical (in Go, pointer-equal) to a
  sentinel even when the message text coincides, which the distinct
  `message`/`protocol`/`decode` constructors capture.  A Go runtime panic
  (out-of-range slice index) is modelled as the distinguished
  `GoError.panic` value so every embedded function is total.
- An HTTP `Response` models a completed exchange (status code plus body);
  the transport-error early return of `(*client).do` is outside this model.
-/

/-- A JSON value.  Numbers are modelled as integers. -/
inductive JValue where
  | null
  | bool (b : Bool)
  | num (n : Int)
  | str (s : String)
  | arr (elems : List JValue)
  | obj (fields : List (String × JValue))

instance : Inhabited JValue := ⟨JValue.null⟩

/-- Go `error` values produced by the client, separated by identity:
the three sentinels declared at the top of client.go, fresh
`errors.New` messages, the `fmt.Errorf("%v: %s", req.URL, body)`
protocol error of `do`, errors returned by `encoding/json`, and Go
runtime panics. -/
inductive GoError where
  | ErrTxIDUsed
  | ErrInsufficientFunds
  | ErrHookExists
  | message (s : String)
  | protocol (reqURL body : String)
  | decode (s : String)
  | panic (s : String)
deriving DecidableEq

/-- The `Error()` method: the text of a Go error value.  The sentinels
carry the fixed texts given to `errors.New` in client.go lines 26-37. -/
def GoError.text : GoError → String
  | .ErrTxIDUsed => "TxID used"
  | .ErrInsufficientFunds => "insufficient funds"
  | .ErrHookExists => "hook exists"
  | .message s => s
  | .protocol reqURL body => reqURL ++ ": " ++ body
  | .decode s => s
  | .panic s => s

/-- Account struct (client.go lines 109-112): json fields `id`, `balance`. -/
structure Account where
  id : Int
  balance : Int
deriving DecidableEq, Inhabited

/-- Transaction struct (client.go lines 116-135).  The `created`
field is Go `time.Time`, unmarshalled from an RFC3339 string; it is
modelled as that string (zero time = empty string); no claim depends
on its internal structure. -/
structure Transaction where
  id : Int
  type : String
  fromAccountID : Int
  toAccountID : Int
  fromAccountBalance : Int
  toAccountBalance : Int
  fromAccountTxID : Int
  toAccountTxID : Int
  value : Int
  created : String
  txHashes : List String
  txOutIndex : Int
deriving DecidableEq, Inhabited

/-- The unexported address struct (client.go lines 148-150). -/
structure Address where
  address : String
deriving DecidableEq, Inhabited

/-- TransactionEvent (client.go lines 600-603): an embedded Transaction
(whose json fields stay at top level) plus a `status` field. -/
structure TransactionEvent where
  transaction : Transaction
  status : String
deriving DecidableEq, Inhabited

/-- The unexported envelope struct `object` (client.go lines 152-156).
`payload` is a `json.RawMessage`: `none` models the nil RawMessage left
by an absent key; `some JValue.null` models a present literal `null`. -/
structure Object where
  type : String
  next : String
  payload : Option JValue

/-- Key lookup in a decoded JSON object; with duplicate keys the last
occurrence wins, as in `encoding/json`. -/
def jLookup (fields : List (String × JValue)) (key : String) : Option JValue :=
  (fields.reverse.find? (fun p => p.1 == key)).map (fun p => p.2)

def int64Min : Int := -(2 ^ 63)

def int64Max : Int := 2 ^ 63 - 1

/-- Unmarshal a JSON value into an int64: must be a number within the
64-bit signed range. -/
def decodeInt64 : JValue → Except String Int
  | .num n => if int64Min ≤ n ∧ n ≤ int64Max then .ok n else .error "integer overflow"
  | _ => .error "cannot unmarshal into int64"

/-- Unmarshal a JSON value into a string. -/
def decodeString : JValue → Except String String
  | .str s => .ok s
  | _ => .error "cannot unmarshal into string"

/-- Unmarshal an int64 struct field: an absent or null key leaves the
zero value. -/
def decodeFieldInt64 (fields : List (String × JValue)) (key : String) : Except String Int :=
  match jLookup fields key with
  | none => .ok 0
  | some .null => .ok 0
  | some v => decodeInt64 v

/-- Unmarshal a string struct field: an absent or null key leaves the
zero value. -/
def decodeFieldString (fields : List (String × JValue)) (key : String) : Except String String :=
  match jLookup fields key with
  | none => .ok ""
  | some .null => .ok ""
  | some v => decodeString v

/-- Unmarshal the elements of a JSON array one by one, left to right,
stopping at the first failure. -/
def decodeElems {α : Type} (d : JValue → Except String α) : List JValue → Except String (List α)
  | [] => .ok []
  | x :: xs =>
    match d x with
    | .error e => .error e
    | .ok a =>
      match decodeElems d xs with
      | .error e => .error e
      | .ok as => .ok (a :: as)

/-- Unmarshal a JSON value into a slice: `null` unmarshals to the empty
(nil) slice, an array elementwise, anything else is an error. -/
def decodeList {α : Type} (d : JValue → Except String α) : JValue → Except String (List α)
  | .arr xs => decodeElems d xs
  | .null => .ok []
  | _ => .error "cannot unmarshal into slice"

/-- Unmarshal a slice-valued struct field: absent key leaves the nil
slice. -/
def decodeFieldList {α : Type} (d : JValue → Except String α)
    (fields : List (String × JValue)) (key : String) : Except String (List α) :=
  match jLookup fields key with
  | none => .ok []
  | some v => decodeList d v

/-- Unmarshal into the Account struct. -/
def decodeAccount : JValue → Except String Account
  | .obj fields => do
    let id ← decodeFieldInt64 fields "id"
    let balance ← decodeFieldInt64 fields "balance"
    pure ⟨id, balance⟩
  | .null => .ok default
  | _ => .error "cannot unmarshal into Account"

/-- Unmarshal the fields of the Transaction struct from a decoded JSON
object, by the json tags of client.go lines 116-135. -/
def decodeTransactionFields (fields : List (String × JValue)) : Except String Transaction := do
  let id ← decodeFieldInt64 fields "id"
  let type ← decodeFieldString fields "type"
  let fromAccountID ← decodeFieldInt64 fields "fromAccountID"
  let toAccountID ← decodeFieldInt64 fields "toAccountID"
  let fromAccountBalance ← decodeFieldInt64 fields "fromAccountBalance"
  let toAccountBalance ← decodeFieldInt64 fields "toAccountBalance"
  let fromAccountTxID ← decodeFieldInt64 fields "fromAccountTxID"
  let toAccountTxID ← decodeFieldInt64 fields "toAccountTxID"
  let value ← decodeFieldInt64 fields "value"
  let created ← decodeFieldString fields "created"
  let txHashes ← decodeFieldList decodeString fields "txHashes"
  let txOutIndex ← decodeFieldInt64 fields "txOutIndex"
  pure ⟨id, type, fromAccountID, toAccountID, fromAccountBalance, toAccountBalance,
    fromAccountTxID, toAccountTxID, value, created, txHashes, txOutIndex⟩

/-- Unmarshal into the Transaction struct. -/
def decodeTransaction : JValue → Except String Transaction
  | .obj fields => decodeTransactionFields fields
  | .null => .ok default
  | _ => .error "cannot unmarshal into Transaction"

/-- Unmarshal into the TransactionEvent struct: the embedded
Transaction's fields are read from the same JSON object, plus `status`. -/
def decodeTransactionEvent : JValue → Except String TransactionEvent
  | .obj fields => do
    let t ← decodeTransactionFields fields
    let status ← decodeFieldString fields "status"
    pure ⟨t, status⟩
  | .null => .ok default
  | _ => .error "cannot unmarshal into TransactionEvent"

/-- Unmarshal into the anonymous `struct { Message string }` of
`doError` (client.go lines 188-190); the wire key is `message`. -/
def decodeMessage : JValue → Except String String
  | .obj fields => decodeFieldString fields "message"
  | .null => .ok ""
  | _ => .error "cannot unmarshal into message struct"

/-- Unmarshal into the address struct; the wire key is `address`. -/
def decodeAddress : JValue → Except String Address
  | .obj fields => do
    let a ← decodeFieldString fields "address"
    pure ⟨a⟩
  | .null => .ok default
  | _ => .error "cannot unmarshal into address"

/-- Unmarshal into the envelope struct `object`: fields `type` and
`next` are strings, `payload` is kept raw (`json.RawMessage`). -/
def decodeObject : JValue → Except String Object
  | .obj fields => do
    let type ← decodeFieldString fields "type"
    let next ← decodeFieldString fields "next"
    pure ⟨type, next, jLookup fields "payload"⟩
  | .null => .ok ⟨"", "", none⟩
  | _ => .error "cannot unmarshal into object"

/-- Models `json.Unmarshal` applied to an envelope's `payload` RawMessage: a
nil RawMessage (absent payload key) fails with the unexpected-end
error, otherwise the kept raw value is decoded. -/
def unmarshalPayload {α : Type} (d : JValue → Except String α) :
    Option JValue → Except String α
  | none => .error "unexpected end of JSON input"
  | some v => d v

/-- The body of a completed HTTP response as observed by `do`:
zero-length, non-empty but not decodable as an envelope, or non-empty
and decodable as the JSON value `v` (with raw text `raw`, used only in
the protocol error message). -/
inductive Body where
  | empty
  | notJson (raw : String)
  | json (raw : String) (v : JValue)

/-- A completed HTTP exchange: status code and body. -/
structure Response where
  statusCode : Nat
  body : Body

/-- Embeds `doError` (client.go lines 187-195): decode the error envelope's
payload as a slice of message structs and return a fresh
`errors.New(payload[0].Message)`.  There is no length check before
`payload[0]`: on a decoded empty slice the Go code panics with an
index-out-of-range runtime error, modelled as `GoError.panic`. -/
def doError (obj : Object) : GoError :=
  match unmarshalPayload (decodeList decodeMessage) obj.payload with
  | .error e => .decode e
  | .ok msgs =>
    match msgs with
    | [] => .panic "runtime error: index out of range"
    | m :: _ => .message m

/-- Embeds `(*client).do` (client.go lines 158-185), from the point where the
exchange has completed: an empty body with a 2xx status is success with
empty cursor and nil payload; an empty body otherwise, a body that is
not valid JSON, and a body not unmarshalable as the envelope struct all
yield the `fmt.Errorf("%v: %s", req.URL, body)` protocol error; an
envelope of type `error` is routed through `doError`; any other
envelope is success with its cursor and raw payload. -/
def doReq (reqURL : String) (resp : Response) : Except GoError (String × Option JValue) :=
  match resp.body with
  | .empty =>
    if 200 ≤ resp.statusCode ∧ resp.statusCode < 300 then .ok ("", none)
    else .error (.protocol reqURL "")
  | .notJson raw => .error (.protocol reqURL raw)
  | .json raw v =>
    match decodeObject v with
    | .error _ => .error (.protocol reqURL raw)
    | .ok obj =>
      if obj.type = "error" then .error (doError obj)
      else .ok (obj.next, obj.payload)

/-- Embeds `accountsFromPayload` (client.go lines 197-203). -/
def accountsFromPayload (payload : Option JValue) : Except GoError (List Account) :=
  match unmarshalPayload (decodeList decodeAccount) payload with
  | .error e => .error (.decode e)
  | .ok accs => .ok accs

/-- Embeds `accountFromPayload` (client.go lines 205-214): decode the account
slice, reject any length other than one with the fresh
`errors.New("expected one account")`, otherwise return `accs[0]`. -/
def accountFromPayload (payload : Option JValue) : Except GoError Account :=
  match accountsFromPayload payload with
  | .error e => .error e
  | .ok accs =>
    if h : accs.length ≠ 1 then .error (.message "expected one account")
    else .ok (accs.get ⟨0, by omega⟩)

/-- Embeds `(*client).CreateAccount` (client.go lines 218-231) after the
exchange: run `do` on `{base}/accounts/` and decode exactly one
account. -/
def clientCreateAccount (baseURL : String) (resp : Response) : Except GoError Account :=
  match doReq (baseURL ++ "/accounts/") resp with
  | .error e => .error e
  | .ok p => accountFromPayload p.2

/-- Embeds `(*client).Account` (client.go lines 235-249) after the exchange:
run `do` on `{base}/accounts/{id}` and decode exactly one account. -/
def clientAccount (baseURL : String) (id : Int) (resp : Response) : Except GoError Account :=
  match doReq (baseURL ++ "/accounts/" ++ toString id) resp with
  | .error e => .error e
  | .ok p => accountFromPayload p.2

/-- Embeds `(*client).CreateAddress` (client.go lines 291-312) after the
exchange: run `do` on `{base}/accounts/{id}/addresses/`, decode the
payload as a slice of address structs, reject any length other than
one with the fresh `errors.New("expected one address")`, otherwise
return `addrs[0].Address`. -/
def clientCreateAddress (baseURL : String) (accountID : Int) (resp : Response) :
    Except GoError String :=
  match doReq (baseURL ++ "/accounts/" ++ toString accountID ++ "/addresses/") resp with
  | .error e => .error e
  | .ok p =>
    match unmarshalPayload (decodeList decodeAddress) p.2 with
    | .error e => .error (.decode e)
    | .ok addrs =>
      if h : addrs.length ≠ 1 then .error (.message "expected one address")
      else .ok (addrs.get ⟨0, by omega⟩).address

/-- Embeds `(*client).CreateTransactionIDs` (client.go lines 359-394) after
the exchange: run `do` on `{base}/transactions/`, decode the payload as
a slice of Transactions, then copy the IDs into `txIDs :=
make([]int64, n)` with `for i, tx := range txns { txIDs[i] = tx.ID }`.
The preallocated slice has length `n` with zero entries, so the loop
writes the decoded IDs in payload order into the first
`len(txns)` slots, leaves any remaining slots zero, and panics with an
index-out-of-range runtime error when `len(txns) > n`. -/
def clientCreateTransactionIDs (baseURL : String) (n : Nat) (resp : Response) :
    Except GoError (List Int) :=
  match doReq (baseURL ++ "/transactions/") resp with
  | .error e => .error e
  | .ok p =>
    match unmarshalPayload (decodeList decodeTransaction) p.2 with
    | .error e => .error (.decode e)
    | .ok txns =>
      if txns.length ≤ n then
        .ok (txns.map (fun tx => tx.id) ++ List.replicate (n - txns.length) 0)
      else .error (.panic "runtime error: index out of range")

/-- Embeds `(*client).Transaction` (client.go lines 398-417) after the
exchange: run `do` on `{base}/transactions/{id}`, decode the payload as
a slice of Transactions, and return `txns[0]` with no length check:
on a decoded empty slice the Go code panics with an index-out-of-range
runtime error, modelled as `GoError.panic`. -/
def clientTransaction (baseURL : String) (id : Int) (resp : Response) :
    Except GoError Transaction :=
  match doReq (baseURL ++ "/transactions/" ++ toString id) resp with
  | .error e => .error e
  | .ok p =>
    match unmarshalPayload (decodeList decodeTransaction) p.2 with
    | .error e => .error (.decode e)
    | .ok txns =>
      match txns with
      | [] => .error (.panic "runtime error: index out of range")
      | t :: _ => .ok t

/-- Embeds `(*client).Transfer` (client.go lines 422-459) after the exchange:
run `do` on `{base}/transactions/`; on failure, `switch err.Error()`
maps exactly the text `insufficient funds` to the sentinel
`ErrInsufficientFunds` and returns every other error unchanged.  The
transfer arguments only shape the request body, which the server has
already consumed in the modelled exchange.  `none` is the nil error of
a successful call. -/
def clientTransfer (baseURL : String) (txID fromAccountID toAccountID value : Int)
    (resp : Response) : Option GoError :=
  match doReq (baseURL ++ "/transactions/") resp with
  | .error err =>
    some (if err.text = "insufficient funds" then GoError.ErrInsufficientFunds else err)
  | .ok _ => none

/-- Embeds `(*client).Debit` (client.go lines 464-495) after the exchange:
run `do` on `{base}/transactions/` and return any error unchanged —
unlike `Transfer` there is no `switch` on the error text, so no error
is ever mapped to a sentinel. -/
def clientDebit (baseURL : String) (txID fromAccountID : Int) (toAddress : String)
    (value : Int) (resp : Response) : Option GoError :=
  match doReq (baseURL ++ "/transactions/") resp with
  | .error err => some err
  | .ok _ => none

/-- Embeds `(*client).CreateHook` (client.go lines 520-548) after the
exchange: run `do` on `{base}/hooks/`; on failure, `switch
err.Error()` maps exactly the text `hook exists` to the sentinel
`ErrHookExists` and returns every other error unchanged. -/
def clientCreateHook (baseURL : String) (url : String) (resp : Response) : Option GoError :=
  match doReq (baseURL ++ "/hooks/") resp with
  | .error err =>
    some (if err.text = "hook exists" then GoError.ErrHookExists else err)
  | .ok _ => none

/-- An inbound webhook request as observed by `Unmarshal`: the declared
Content-Type header and the request body. -/
structure HookRequest where
  contentType : String
  body : Body

/-- Models `json.NewDecoder(r.Body).Decode(obj)` in `Unmarshal`: an empty
stream is an EOF error, a stream that is not valid JSON is a decode
error (carrying the raw text abstractly), and valid JSON is
unmarshalled as the envelope struct. -/
def decodeBodyObject : Body → Except GoError Object
  | .empty => .error (.decode "EOF")
  | .notJson raw => .error (.decode raw)
  | .json _ v =>
    match decodeObject v with
    | .error e => .error (.decode e)
    | .ok obj => .ok obj

/-- Embeds `Unmarshal` (client.go lines 608-627): reject a request whose
declared Content-Type is not `application/json` with the fresh
`errors.New("incorrect content type")` before touching the body;
otherwise decode the body as an envelope, propagating decode failure;
then dispatch on the envelope type — only `transactions` is
recognised, decoding the payload into the event slice, and any other
tag yields `fmt.Errorf("unknown object type %v", obj.Type)`. -/
def Unmarshal (r : HookRequest) : Except GoError (List TransactionEvent) :=
  if r.contentType ≠ "application/json" then
    .error (.message "incorrect content type")
  else
    match decodeBodyObject r.body with
    | .error e => .error e
    | .ok obj =>
      if obj.type = "transactions" then
        match unmarshalPayload (decodeList decodeTransactionEvent) obj.payload with
        | .error e => .error (.decode e)
        | .ok events => .ok events
      else .error (.message ("unknown object type " ++ obj.type))

/-- Payload of a well-formed error envelope carrying one message. -/
def msgPayload (msg : String) : JValue :=
  .arr [.obj [("message", .str msg)]]

/-- A well-formed error envelope carrying one message. -/
def errEnvelope (msg : String) : JValue :=
  .obj [("type", .str "error"), ("payload", msgPayload msg)]

/-- A completed exchange whose body is a well-formed error envelope. -/
def errResponse (msg : String) : Response :=
  ⟨200, .json "raw" (errEnvelope msg)⟩

/-- A transaction stub carrying only an id, as issued by the server. -/
def txStub (id : Int) : JValue :=
  .obj [("id", .num id)]

/-- A success envelope of the given type around the given payload. -/
def okEnvelope (type : String) (payload : JValue) : JValue :=
  .obj [("type", .str type), ("payload", payload)]

/-- A completed exchange whose body is a success envelope. -/
def okResponse (type : String) (payload : JValue) : Response :=
  ⟨200, .json "raw" (okEnvelope type payload)⟩

/-- An account object with the given id and balance. -/
def accStub (id balance : Int) : JValue :=
  .obj [("id", .num id), ("balance", .num balance)]

/-- C1: the claim that Transfer and Debit return the distinguished
`ErrTxIDUsed` value on a well-formed error envelope reporting reuse of
a consumed transaction ID fails on the code: `ErrTxIDUsed` is declared
(client.go lines 27-29, whose comment promises exactly this) but no
code path returns it.  On the reuse envelope both calls return the
fresh `errors.New("TxID used")` built by `doError`, which is a
different error value from the sentinel even though its text
coincides, so a caller cannot branch on it without string
comparison. -/
theorem transfer_debit_never_return_ErrTxIDUsed :
    clientTransfer "https://api.rtwire.com/v1/mainnet" 1 2 3 4 (errResponse "TxID used") =
      some (GoError.message "TxID used") ∧
    clientDebit "https://api.rtwire.com/v1/mainnet" 1 2 "addr" 4 (errResponse "TxID used") =
      some (GoError.message "TxID used") ∧
    GoError.message "TxID used" ≠ GoError.ErrTxIDUsed ∧
    (GoError.message "TxID used").text = GoError.ErrTxIDUsed.text :=
  ⟨rfl, rfl, by decide, rfl⟩

/-- C2: Transfer does map the insufficient-funds message to the
sentinel `ErrInsufficientFunds` and CreateHook does map the
hook-exists message to the sentinel `ErrHookExists`, but the claim
fails for Debit: `(*client).Debit` (client.go lines 491-494) has no
`switch` on the error text, so on the same insufficient-funds envelope
it returns the fresh generic message error, a different value from the
sentinel its own documentation (client.go lines 31-33) promises. -/
theorem debit_insufficient_funds_not_mapped :
    clientTransfer "https://api.rtwire.com/v1/mainnet" 1 2 3 4
        (errResponse "insufficient funds") = some GoError.ErrInsufficientFunds ∧
    clientCreateHook "https://api.rtwire.com/v1/mainnet" "http://example.com/hook"
        (errResponse "hook exists") = some GoError.ErrHookExists ∧
    clientDebit "https://api.rtwire.com/v1/mainnet" 1 2 "addr" 4
        (errResponse "insufficient funds") = some (GoError.message "insufficient funds") ∧
    GoError.message "insufficient funds" ≠ GoError.ErrInsufficientFunds :=
  ⟨rfl, rfl, rfl, by decide⟩

/-- C3: for every completed exchange, an empty body with a 2xx status
code is success with empty cursor and no payload; for every non-empty
body the result of `do` does not depend on the status code at all, and
when the body decodes as an envelope the outcome is failure exactly
when the envelope type is `error` (routed through `doError`) and
success with the envelope's cursor and payload otherwise. -/
theorem do_envelope_spec (u : String) (s : Nat) (b : Body) :
    (200 ≤ s → s < 300 → doReq u ⟨s, Body.empty⟩ = Except.ok ("", none)) ∧
    (b ≠ Body.empty → ∀ s2, doReq u ⟨s, b⟩ = doReq u ⟨s2, b⟩) ∧
    (∀ raw v obj, decodeObject v = Except.ok obj →
      (obj.type = "error" →
        doReq u ⟨s, Body.json raw v⟩ = Except.error (doError obj)) ∧
      (obj.type ≠ "error" →
        doReq u ⟨s, Body.json raw v⟩ = Except.ok (obj.next, obj.payload))) := by
  refine ⟨fun h1 h2 => ?_, fun hb s2 => ?_,
    fun raw v obj hobj => ⟨fun ht => ?_, fun ht => ?_⟩⟩
  · simp [doReq, h1, h2]
  · cases b with
    | empty => exact absurd rfl hb
    | notJson raw => rfl
    | json raw v => rfl
  · simp [doReq, hobj, ht]
  · simp [doReq, hobj, ht]

/-- Witness for C3 at concrete exchanges: a 204 with empty body, a
malformed body under two different status codes, an error envelope
under status 500, and a non-error envelope under status 500. -/
theorem do_envelope_spec_witness :
    doReq "u" ⟨204, Body.empty⟩ = Except.ok ("", none) ∧
    doReq "u" ⟨404, Body.notJson "x"⟩ = doReq "u" ⟨200, Body.notJson "x"⟩ ∧
    doReq "u" ⟨500, Body.json "raw" (errEnvelope "m")⟩ =
      Except.error (doError ⟨"error", "", some (msgPayload "m")⟩) ∧
    doReq "u" ⟨500, Body.json "raw" (okEnvelope "accounts" (JValue.arr []))⟩ =
      Except.ok ("", some (JValue.arr [])) :=
  ⟨(do_envelope_spec "u" 204 Body.empty).1 (by decide) (by decide),
   (do_envelope_spec "u" 404 (Body.notJson "x")).2.1 (fun h => nomatch h) 200,
   ((do_envelope_spec "u" 500 (Body.json "raw" (errEnvelope "m"))).2.2 "raw"
     (errEnvelope "m") ⟨"error", "", some (msgPayload "m")⟩ rfl).1 rfl,
   ((do_envelope_spec "u" 500 (Body.json "raw" (okEnvelope "accounts" (JValue.arr [])))).2.2
     "raw" (okEnvelope "accounts" (JValue.arr []))
     ⟨"accounts", "", some (JValue.arr [])⟩ rfl).2 (by decide)⟩

/-- C4: `do` routes every decoded envelope of type `error` through
`doError`; `doError` decodes the payload as a sequence of message
objects and, when that sequence has a first element, returns the fresh
domain error carrying exactly the first element's message; when
decoding the error payload fails, the decode error itself is
returned. -/
theorem doError_message_extraction :
    (∀ (u : String) (s : Nat) (raw : String) (v : JValue) (obj : Object),
      decodeObject v = Except.ok obj → obj.type = "error" →
        doReq u ⟨s, Body.json raw v⟩ = Except.error (doError obj)) ∧
    (∀ (obj : Object) (m : String) (rest : List String),
      unmarshalPayload (decodeList decodeMessage) obj.payload = Except.ok (m :: rest) →
        doError obj = GoError.message m) ∧
    (∀ (obj : Object) (e : String),
      unmarshalPayload (decodeList decodeMessage) obj.payload = Except.error e →
        doError obj = GoError.decode e) := by
  refine ⟨fun u s raw v obj hobj ht => ?_, fun obj m rest h => ?_, fun obj e h => ?_⟩
  · simp [doReq, hobj, ht]
  · simp [doError, h]
  · simp [doError, h]

/-- Witness for C4 at concrete envelopes: an error envelope with one
message, and an error envelope whose payload RawMessage is nil so that
its decoding fails. -/
theorem doError_message_extraction_witness :
    doReq "u" ⟨200, Body.json "raw" (errEnvelope "boom")⟩ =
      Except.error (doError ⟨"error", "", some (msgPayload "boom")⟩) ∧
    doError ⟨"error", "", some (msgPayload "boom")⟩ = GoError.message "boom" ∧
    doError ⟨"error", "", none⟩ = GoError.decode "unexpected end of JSON input" :=
  ⟨doError_message_extraction.1 "u" 200 "raw" (errEnvelope "boom")
     ⟨"error", "", some (msgPayload "boom")⟩ rfl rfl,
   doError_message_extraction.2.1 ⟨"error", "", some (msgPayload "boom")⟩ "boom" [] rfl,
   doError_message_extraction.2.2 ⟨"error", "", none⟩ "unexpected end of JSON input" rfl⟩

/-- C5: for every exchange in CreateAccount, Account and CreateAddress
whose envelope call succeeds and whose payload decodes to a list, a
list length different from one yields the cardinality error
(`expected one account` / `expected one address`) and a one-element
list yields exactly that element. -/
theorem exactly_one_cardinality (u : String) (accountID : Int) (resp : Response) :
    (∀ p accs, doReq (u ++ "/accounts/") resp = Except.ok p →
      accountsFromPayload p.2 = Except.ok accs →
      (accs.length ≠ 1 →
        clientCreateAccount u resp = Except.error (GoError.message "expected one account")) ∧
      (∀ a, accs = [a] → clientCreateAccount u resp = Except.ok a)) ∧
    (∀ p accs, doReq (u ++ "/accounts/" ++ toString accountID) resp = Except.ok p →
      accountsFromPayload p.2 = Except.ok accs →
      (accs.length ≠ 1 →
        clientAccount u accountID resp = Except.error (GoError.message "expected one account")) ∧
      (∀ a, accs = [a] → clientAccount u accountID resp = Except.ok a)) ∧
    (∀ p addrs, doReq (u ++ "/accounts/" ++ toString accountID ++ "/addresses/") resp =
        Except.ok p →
      unmarshalPayload (decodeList decodeAddress) p.2 = Except.ok addrs →
      (addrs.length ≠ 1 →
        clientCreateAddress u accountID resp =
          Except.error (GoError.message "expected one address")) ∧
      (∀ a, addrs = [a] → clientCreateAddress u accountID resp = Except.ok a.address)) := by
  refine ⟨fun p accs hdo hacc => ⟨fun hne => ?_, fun a ha => ?_⟩,
    fun p accs hdo hacc => ⟨fun hne => ?_, fun a ha => ?_⟩,
    fun p addrs hdo haddr => ⟨fun hne => ?_, fun a ha => ?_⟩⟩
  · simp [clientCreateAccount, hdo, accountFromPayload, hacc, hne]
  · subst ha; simp [clientCreateAccount, hdo, accountFromPayload, hacc]
  · simp [clientAccount, hdo, accountFromPayload, hacc, hne]
  · subst ha; simp [clientAccount, hdo, accountFromPayload, hacc]
  · simp [clientCreateAddress, hdo, haddr, hne]
  · subst ha; simp [clientCreateAddress, hdo, haddr]

/-- Witness for C5 at concrete exchanges: a two-element and an empty
account payload are rejected, a one-element payload is returned, and
the same for addresses. -/
theorem exactly_one_cardinality_witness :
    clientCreateAccount "u" (okResponse "accounts" (JValue.arr [accStub 1 0, accStub 2 0])) =
      Except.error (GoError.message "expected one account") ∧
    clientCreateAccount "u" (okResponse "accounts" (JValue.arr [accStub 3 9])) =
      Except.ok ⟨3, 9⟩ ∧
    clientAccount "u" 3 (okResponse "accounts" (JValue.arr [])) =
      Except.error (GoError.message "expected one account") ∧
    clientCreateAddress "u" 3 (okResponse "addresses"
        (JValue.arr [JValue.obj [("address", JValue.str "addr1")]])) =
      Except.ok "addr1" :=
  ⟨((exactly_one_cardinality "u" 3
      (okResponse "accounts" (JValue.arr [accStub 1 0, accStub 2 0]))).1
      ("", some (JValue.arr [accStub 1 0, accStub 2 0])) [⟨1, 0⟩, ⟨2, 0⟩] rfl rfl).1 (by decide),
   ((exactly_one_cardinality "u" 3 (okResponse "accounts" (JValue.arr [accStub 3 9]))).1
      ("", some (JValue.arr [accStub 3 9])) [⟨3, 9⟩] rfl rfl).2 ⟨3, 9⟩ rfl,
   ((exactly_one_cardinality "u" 3 (okResponse "accounts" (JValue.arr []))).2.1
      ("", some (JValue.arr [])) [] rfl rfl).1 (by decide),
   ((exactly_one_cardinality "u" 3 (okResponse "addresses"
      (JValue.arr [JValue.obj [("address", JValue.str "addr1")]]))).2.2
      ("", some (JValue.arr [JValue.obj [("address", JValue.str "addr1")]])) [⟨"addr1"⟩]
      rfl rfl).2 ⟨"addr1"⟩ rfl⟩

/-- The i-th id of the mapped id list is the id of the i-th transaction. -/
theorem getD_map_txid (txns : List Transaction) (i : Nat) (h : i < txns.length) :
    (txns.map (fun tx => tx.id)).getD i 0 = (txns.getD i default).id := by
  induction txns generalizing i with
  | nil => simp at h
  | cons t ts ih =>
    cases i with
    | zero => simp
    | succ j =>
      simp only [List.map_cons, List.getD_cons_succ]
      exact ih j (by simpa using h)

/-- Indexing an appended list below the left part's length stays in the
left part. -/
theorem getD_append_left_int (l m : List Int) (i : Nat) (h : i < l.length) :
    (l ++ m).getD i 0 = l.getD i 0 := by
  induction l generalizing i with
  | nil => simp at h
  | cons x xs ih =>
    cases i with
    | zero => simp
    | succ j =>
      simp only [List.cons_append, List.getD_cons_succ]
      exact ih j (by simpa using h)

/-- C6: for every n at least 1, a successful CreateTransactionIDs(n)
call returns a list of exactly n IDs, and the i-th returned ID is the
ID of the i-th transaction stub of the decoded payload, in server
order. -/
theorem createTransactionIDs_count_and_order (u : String) (n : Nat) (resp : Response)
    (ids : List Int) (hn : 1 ≤ n)
    (h : clientCreateTransactionIDs u n resp = Except.ok ids) :
    ids.length = n ∧
    ∃ p txns, doReq (u ++ "/transactions/") resp = Except.ok p ∧
      unmarshalPayload (decodeList decodeTransaction) p.2 = Except.ok txns ∧
      txns.length ≤ n ∧
      ∀ i, i < txns.length → ids.getD i 0 = (txns.getD i default).id := by
  unfold clientCreateTransactionIDs at h
  cases hdo : doReq (u ++ "/transactions/") resp with
  | error e => rw [hdo] at h; exact absurd h (by simp)
  | ok p =>
    rw [hdo] at h
    dsimp only at h
    cases hum : unmarshalPayload (decodeList decodeTransaction) p.2 with
    | error e => rw [hum] at h; exact absurd h (by simp)
    | ok txns =>
      rw [hum] at h
      dsimp only at h
      by_cases hle : txns.length ≤ n
      · rw [if_pos hle] at h
        have hids : txns.map (fun tx => tx.id) ++ List.replicate (n - txns.length) 0 = ids := by
          injection h
        constructor
        · rw [← hids]
          simp only [List.length_append, List.length_map, List.length_replicate]
          omega
        · refine ⟨p, txns, rfl, hum, hle, fun i hi => ?_⟩
          rw [← hids, getD_append_left_int _ _ i (by simpa using hi), getD_map_txid _ i hi]
      · rw [if_neg hle] at h
        exact absurd h (by simp)

/-- Witness for C6 at a concrete exchange: asking for two IDs against a
payload of two stubs with IDs 5 and 7 returns exactly the list
consisting of 5 then 7. -/
theorem createTransactionIDs_count_and_order_witness :
    1 ≤ 2 ∧
    clientCreateTransactionIDs "u" 2 (okResponse "transactions"
      (JValue.arr [txStub 5, txStub 7])) = Except.ok [5, 7] ∧
    ([5, 7] : List Int).length = 2 :=
  ⟨by decide, rfl,
   (createTransactionIDs_count_and_order "u" 2
     (okResponse "transactions" (JValue.arr [txStub 5, txStub 7])) [5, 7]
     (by decide) rfl).1⟩

/-- C7: a webhook request whose declared Content-Type is not the JSON
media type is rejected with the content-type error whatever the body
holds (the result is the same for every body, so the body is not read);
with the JSON media type the body is decoded: an empty body is an EOF
decode failure, a non-JSON body a decode failure, and a body that is
not unmarshalable as the envelope struct propagates that decode
error. -/
theorem unmarshal_content_type_guard (ct : String) (b : Body) :
    (ct ≠ "application/json" →
      Unmarshal ⟨ct, b⟩ = Except.error (GoError.message "incorrect content type") ∧
      ∀ b2, Unmarshal ⟨ct, b⟩ = Unmarshal ⟨ct, b2⟩) ∧
    Unmarshal ⟨"application/json", Body.empty⟩ = Except.error (GoError.decode "EOF") ∧
    (∀ raw, Unmarshal ⟨"application/json", Body.notJson raw⟩ =
      Except.error (GoError.decode raw)) ∧
    (∀ raw v e, decodeObject v = Except.error e →
      Unmarshal ⟨"application/json", Body.json raw v⟩ =
        Except.error (GoError.decode e)) := by
  refine ⟨fun hct => ⟨?_, fun b2 => ?_⟩, rfl, fun raw => rfl, fun raw v e hv => ?_⟩
  · simp [Unmarshal, hct]
  · simp [Unmarshal, hct]
  · simp [Unmarshal, decodeBodyObject, hv]

/-- Witness for C7 at concrete requests: a form-encoded request with a
valid transactions body is still rejected by content type and its
result does not change when the body is replaced, and a JSON request
with an undecodable body surfaces the decode error. -/
theorem unmarshal_content_type_guard_witness :
    Unmarshal ⟨"application/x-www-form-urlencoded",
        Body.json "raw" (okEnvelope "transactions" (JValue.arr []))⟩ =
      Except.error (GoError.message "incorrect content type") ∧
    Unmarshal ⟨"application/x-www-form-urlencoded",
        Body.json "raw" (okEnvelope "transactions" (JValue.arr []))⟩ =
      Unmarshal ⟨"application/x-www-form-urlencoded", Body.notJson "junk"⟩ ∧
    Unmarshal ⟨"application/json", Body.json "5" (JValue.num 5)⟩ =
      Except.error (GoError.decode "cannot unmarshal into object") :=
  ⟨((unmarshal_content_type_guard "application/x-www-form-urlencoded"
      (Body.json "raw" (okEnvelope "transactions" (JValue.arr [])))).1 (by decide)).1,
   ((unmarshal_content_type_guard "application/x-www-form-urlencoded"
      (Body.json "raw" (okEnvelope "transactions" (JValue.arr [])))).1 (by decide)).2
      (Body.notJson "junk"),
   (unmarshal_content_type_guard "application/json"
      (Body.json "5" (JValue.num 5))).2.2.2 "5" (JValue.num 5)
      "cannot unmarshal into object" rfl⟩

/-- Successful elementwise decoding produces a list of the same length
whose i-th element is the decoding of the i-th input element. -/
theorem decodeElems_ok_getD {α : Type} [Inhabited α] (d : JValue → Except String α) :
    ∀ (xs : List JValue) (as : List α), decodeElems d xs = Except.ok as →
      as.length = xs.length ∧
      ∀ i, i < xs.length → d (xs.getD i JValue.null) = Except.ok (as.getD i default) := by
  intro xs
  induction xs with
  | nil =>
    intro as h
    simp only [decodeElems] at h
    injection h with h
    subst h
    simp
  | cons x xs ih =>
    intro as h
    simp only [decodeElems] at h
    cases hd : d x with
    | error e => rw [hd] at h; exact absurd h (by simp)
    | ok a =>
      rw [hd] at h
      dsimp only at h
      cases hrest : decodeElems d xs with
      | error e => rw [hrest] at h; exact absurd h (by simp)
      | ok as2 =>
        rw [hrest] at h
        dsimp only at h
        injection h with h
        subst h
        obtain ⟨hlen, hidx⟩ := ih as2 hrest
        refine ⟨by simp [hlen], fun i hi => ?_⟩
        cases i with
        | zero => simpa using hd
        | succ j =>
          simp only [List.getD_cons_succ]
          exact hidx j (by simpa using hi)

/-- C8: under the JSON media type, a body decoding to an envelope of
type `transactions` has its payload decoded into the event sequence —
elementwise and order-preserving, the i-th event coming from the i-th
payload element — while an envelope of any other type is rejected with
the unknown-object-type error whose text names that type tag. -/
theorem unmarshal_dispatch_and_order (raw : String) (v : JValue) (obj : Object)
    (hobj : decodeObject v = Except.ok obj) :
    (obj.type = "transactions" →
      ∀ elems events, obj.payload = some (JValue.arr elems) →
        decodeElems decodeTransactionEvent elems = Except.ok events →
        Unmarshal ⟨"application/json", Body.json raw v⟩ = Except.ok events ∧
        events.length = elems.length ∧
        ∀ i, i < elems.length →
          decodeTransactionEvent (elems.getD i JValue.null) =
            Except.ok (events.getD i default)) ∧
    (obj.type ≠ "transactions" →
      Unmarshal ⟨"application/json", Body.json raw v⟩ =
        Except.error (GoError.message ("unknown object type " ++ obj.type))) := by
  refine ⟨fun ht elems events hp hev => ?_, fun ht => ?_⟩
  · obtain ⟨hlen, hidx⟩ := decodeElems_ok_getD decodeTransactionEvent elems events hev
    refine ⟨?_, hlen, hidx⟩
    simp [Unmarshal, decodeBodyObject, hobj, ht, hp, unmarshalPayload, decodeList, hev]
  · simp [Unmarshal, decodeBodyObject, hobj, ht]

/-- A transaction-event object carrying an id and a pending status. -/
def evStub : JValue :=
  .obj [("id", .num 9), ("status", .str "pending")]

/-- The TransactionEvent that `evStub` decodes to. -/
def evVal : TransactionEvent :=
  ⟨⟨9, "", 0, 0, 0, 0, 0, 0, 0, "", [], 0⟩, "pending"⟩

/-- Witness for C8 at concrete requests: a one-event transactions
envelope decodes to that event, and an `accounts`-tagged envelope is
rejected with an error naming the tag. -/
theorem unmarshal_dispatch_and_order_witness :
    Unmarshal ⟨"application/json",
        Body.json "raw" (okEnvelope "transactions" (JValue.arr [evStub]))⟩ =
      Except.ok [evVal] ∧
    Unmarshal ⟨"application/json",
        Body.json "raw" (okEnvelope "accounts" (JValue.arr []))⟩ =
      Except.error (GoError.message "unknown object type accounts") :=
  ⟨((unmarshal_dispatch_and_order "raw" (okEnvelope "transactions" (JValue.arr [evStub]))
      ⟨"transactions", "", some (JValue.arr [evStub])⟩ rfl).1 rfl
      [evStub] [evVal] rfl rfl).1,
   (unmarshal_dispatch_and_order "raw" (okEnvelope "accounts" (JValue.arr []))
      ⟨"accounts", "", some (JValue.arr [])⟩ rfl).2 (by decide)⟩

/-- C9: on every error envelope whose payload successfully decodes to
the empty message list, `doError` reaches `payload[0]` on an empty
slice; the embedding is total there and returns the distinguished
runtime-panic error value, which `do` — and hence every operation built
on it — surfaces as its result. -/
theorem doError_empty_messages_panic (obj : Object)
    (h : unmarshalPayload (decodeList decodeMessage) obj.payload = Except.ok []) :
    doError obj = GoError.panic "runtime error: index out of range" ∧
    ∀ (u : String) (s : Nat) (raw : String) (v : JValue),
      decodeObject v = Except.ok obj → obj.type = "error" →
      doReq u ⟨s, Body.json raw v⟩ =
        Except.error (GoError.panic "runtime error: index out of range") := by
  have h1 : doError obj = GoError.panic "runtime error: index out of range" := by
    simp [doError, h]
  exact ⟨h1, fun u s raw v hobj ht => by simp [doReq, hobj, ht, h1]⟩

/-- Witness for C9 at the concrete error envelope whose payload is the
empty JSON array. -/
theorem doError_empty_messages_panic_witness :
    doError ⟨"error", "", some (JValue.arr [])⟩ =
      GoError.panic "runtime error: index out of range" ∧
    doReq "u" ⟨200, Body.json "raw"
        (JValue.obj [("type", JValue.str "error"), ("payload", JValue.arr [])])⟩ =
      Except.error (GoError.panic "runtime error: index out of range") :=
  ⟨(doError_empty_messages_panic ⟨"error", "", some (JValue.arr [])⟩ rfl).1,
   (doError_empty_messages_panic ⟨"error", "", some (JValue.arr [])⟩ rfl).2 "u" 200 "raw"
     (JValue.obj [("type", JValue.str "error"), ("payload", JValue.arr [])]) rfl rfl⟩

/-- C10: `(*client).Transaction` performs no cardinality check on the
decoded payload: a successful exchange whose payload decodes to an
empty list reaches `txns[0]` on an empty slice — the total embedding
returns the distinguished runtime-panic error value there — while a
payload decoding to any non-empty list, of whatever length, yields its
first element unconditionally. -/
theorem transaction_no_cardinality_check (u : String) (id : Int) (resp : Response)
    (p : String × Option JValue)
    (hdo : doReq (u ++ "/transactions/" ++ toString id) resp = Except.ok p) :
    (unmarshalPayload (decodeList decodeTransaction) p.2 = Except.ok [] →
      clientTransaction u id resp =
        Except.error (GoError.panic "runtime error: index out of range")) ∧
    (∀ t rest, unmarshalPayload (decodeList decodeTransaction) p.2 = Except.ok (t :: rest) →
      clientTransaction u id resp = Except.ok t) := by
  constructor
  · intro h
    simp [clientTransaction, hdo, h]
  · intro t rest h
    simp [clientTransaction, hdo, h]

/-- Witness for C10 at concrete exchanges: an empty payload list yields
the runtime-panic value, and a two-element payload yields the first
transaction with no cardinality error. -/
theorem transaction_no_cardinality_check_witness :
    clientTransaction "u" 3 (okResponse "transactions" (JValue.arr [])) =
      Except.error (GoError.panic "runtime error: index out of range") ∧
    clientTransaction "u" 3 (okResponse "transactions" (JValue.arr [txStub 5, txStub 7])) =
      Except.ok ⟨5, "", 0, 0, 0, 0, 0, 0, 0, "", [], 0⟩ :=
  ⟨(transaction_no_cardinality_check "u" 3 (okResponse "transactions" (JValue.arr []))
      ("", some (JValue.arr [])) rfl).1 rfl,
   (transaction_no_cardinality_check "u" 3
      (okResponse "transactions" (JValue.arr [txStub 5, txStub 7]))
      ("", some (JValue.arr [txStub 5, txStub 7])) rfl).2
      ⟨5, "", 0, 0, 0, 0, 0, 0, 0, "", [], 0⟩
      [⟨7, "", 0, 0, 0, 0, 0, 0, 0, "", [], 0⟩] rfl⟩
